import Mathlib

/-!
Verification of the prompt-assembly and batch-answering core of the
minimal-mixtral repository (`parallel_solver.py`, `chat.py`).

The Python code is shallowly embedded: dictionaries with optional keys become
structures with `Option` fields, `dict` iteration order becomes association
lists, raised exceptions become `Except`/`Option`/flag results, and string
building with `+=`/f-strings becomes explicit `String` appends mirroring the
source expressions.  External effects (the inference engine, stdout, the file
system) are out of scope: for the driver functions only the pure request
construction (prompt list and sampling configuration) and the pure file
content are modelled.
-/

/-- Python `" ".join(parts)` (src: `parallel_solver.py` line 43). -/
def joinSpace : List String → String
  | [] => ""
  | [x] => x
  | x :: y :: xs => x ++ " " ++ joinSpace (y :: xs)

/-- Concatenation of a list of strings, as produced by sequential writes or
repeated `+=`. -/
def strConcat : List String → String
  | [] => ""
  | s :: rest => s ++ strConcat rest

/-- `build_conversation_prompt` from `parallel_solver.py` lines 7-45 (the copy
in `chat.py` lines 34-72 is textually identical).  The `ValueError` branch is
the `Except.error` case; `user_messages[-1]` is `getLast`, legitimate because
the guard has already forced the list to be nonempty. -/
def build_conversation_prompt (user_messages bot_messages : List String) :
    Except String String :=
  if h : user_messages.length ≠ bot_messages.length + 1 then
    Except.error "User messages and bot messages must be of equal length"
  else
    Except.ok (joinSpace
      (["<s>"] ++
        (user_messages.zip bot_messages).foldl
          (fun acc p => acc ++ ["[INST]", p.1, "[/INST]", p.2, "</s>"]) [] ++
        ["[INST]",
          user_messages.getLast (by
            intro hnil
            rw [hnil] at h
            simp at h),
          "[/INST]"]))

/-- Raw question payload: `{question_text: ..., options?: ...}`
(`questions.json` entries consumed by `generate_sessions`). -/
structure RawQuestion where
  question_text : String
  options : Option (List String)
deriving DecidableEq

/-- A session dictionary: `question_raw` and `question_formatted` are set at
creation; `answers`, `final_answers` and `formatted_output` are keys added
later, hence `Option` (absent key = `none`). -/
structure Session where
  question_raw : RawQuestion
  question_formatted : String
  answers : Option (List String)
  final_answers : Option (List String)
  formatted_output : Option String
deriving DecidableEq

/-- The session store: a Python `dict` in insertion order. -/
abbrev Store := List (String × Session)

/-- Python `'-'*45`. -/
def dash45 : String := String.mk (List.replicate 45 '-')

/-- Python `'-'*43`. -/
def dash43 : String := String.mk (List.replicate 43 '-')

/-- Python `'='*100`. -/
def eq100 : String := String.mk (List.replicate 100 '=')

/-- Python `'~'*10`. -/
def tilde10 : String := String.mk (List.replicate 10 '~')

/-- The formatted-question text built by `generate_sessions`
(`parallel_solver.py` lines 105-111): a `QUESTION:` line, one `OPTION i:` line
per option when the `options` key is present, then the two fixed suffix
strings appended by the two `+=` statements. -/
def question_formatted_of (question : RawQuestion) : String :=
  let q0 := "QUESTION: " ++ question.question_text ++ "\n"
  let q1 :=
    match question.options with
    | none => q0
    | some opts =>
        opts.enum.foldl
          (fun acc p => acc ++ ("OPTION " ++ toString p.1 ++ ": " ++ p.2 ++ "\n")) q0
  q1 ++ "\n\n Please provide the answer and explain your reasoning!" ++
    " If there are options to choose from, do not provide an answer different from the options.\n"

/-- `generate_sessions` (`parallel_solver.py` lines 102-119): one fresh session
per question, keyed and ordered as the input; the `print` call is a dropped
side effect. -/
def generate_sessions (raw_questions : List (String × RawQuestion)) : Store :=
  raw_questions.map (fun p =>
    (p.1, { question_raw := p.2
            question_formatted := question_formatted_of p.2
            answers := none
            final_answers := none
            formatted_output := none }))

/-- The transcript string built for one session by `format_session_outputs`
(`parallel_solver.py` lines 92-98), given the values of the keys it reads. -/
def render_formatted_output (question_formatted : String)
    (answers : List String) (final_answers : Option (List String)) : String :=
  let out := question_formatted ++ "\n\n\n"
  let out := answers.enum.foldl
    (fun acc p =>
      acc ++ (dash45 ++ "[ANSWER " ++ toString p.1 ++ "]" ++ dash45 ++ "\n" ++ p.2 ++ "\n\n\n"))
    out
  match final_answers with
  | none => out
  | some fs =>
      fs.enum.foldl
        (fun acc p =>
          acc ++ (dash43 ++ "[FINAL ANSWER]" ++ dash43 ++ "\n" ++ p.2 ++ "\n\n\n"))
        out

/-- `format_session_outputs` (`parallel_solver.py` lines 83-100).  The loop
mutates `sessions` in place and dies with a `KeyError` at the first session
missing the `answers` key; the returned flag is `false` exactly when that
exception fires, and the returned store is the state at that moment (sessions
before the failure already updated, the failing one and later ones untouched). -/
def format_session_outputs : Store → Store × Bool
  | [] => ([], true)
  | (id, s) :: rest =>
    match s.answers with
    | none => ((id, s) :: rest, false)
    | some answers =>
        let r := render_formatted_output s.question_formatted answers s.final_answers
        let s' := { s with formatted_output := some r }
        ((id, s') :: (format_session_outputs rest).1, (format_session_outputs rest).2)

/-- Transcript as literally described by the specification of the Output
Formatter ("formatted question text + two newlines, then for each answer
candidate a fixed-width delimiter line ... followed by the candidate text and
two trailing newlines", likewise for final answers); stated only to be
compared against `render_formatted_output`. -/
def render_formatted_output_specC3 (question_formatted : String)
    (answers : List String) (final_answers : Option (List String)) : String :=
  question_formatted ++ "\n\n" ++
    strConcat (answers.enum.map (fun p =>
      dash45 ++ "[ANSWER " ++ toString p.1 ++ "]" ++ dash45 ++ "\n" ++ p.2 ++ "\n\n")) ++
    strConcat ((final_answers.getD []).map (fun a =>
      dash43 ++ "[FINAL ANSWER]" ++ dash43 ++ "\n" ++ a ++ "\n\n"))

/-- Sampling configuration handed to `llm.generate`
(`vllm.sampling_params.SamplingParams` fields used by this repository). -/
structure SamplingParams where
  n : Nat
  best_of : Nat
  max_tokens : Nat
deriving DecidableEq

/-- The generation request issued by `answer_batch_questions`
(`parallel_solver.py` lines 48-73): one single-turn prompt per session from
its `question_formatted`, plus the sampling configuration with the 1024-token
cap.  The engine call itself and the storing of its results are external. -/
def answer_batch_questions_request (sessions : Store) (n best_of : Nat) :
    List (Except String String) × SamplingParams :=
  (sessions.map (fun p => build_conversation_prompt [p.2.question_formatted] []),
   { n := n, best_of := best_of, max_tokens := 1024 })

/-- The prompt list built by `answer_batch_questions_final`
(`parallel_solver.py` lines 134-143): `none` models the `KeyError` raised when
some session lacks the `formatted_output` key (nothing is submitted then). -/
def build_final_prompts : Store → Option (List (Except String String))
  | [] => some []
  | p :: rest =>
    match p.2.formatted_output with
    | none => none
    | some session_history =>
      match build_final_prompts rest with
      | none => none
      | some ps =>
          some (build_conversation_prompt
              [session_history ++ "\n" ++ tilde10 ++
                "\n\nPlease provide the CORRECT final answer based on the question and the independent answers above. Explain why please!\n"]
              [] :: ps)

/-- The generation request issued by `answer_batch_questions_final`
(`parallel_solver.py` lines 129-155). -/
def answer_batch_questions_final_request (sessions : Store) (n best_of : Nat) :
    Option (List (Except String String) × SamplingParams) :=
  (build_final_prompts sessions).map
    (fun ps => (ps, { n := n, best_of := best_of, max_tokens := 1024 }))

/-- The chunks written by `save_file` (`parallel_solver.py` lines 122-127),
with `qid` the running `enumerate` counter; `none` models the `KeyError` when
a session lacks `formatted_output`. -/
def save_file_chunks : Nat → Store → Option (List String)
  | _, [] => some []
  | qid, p :: rest =>
    match p.2.formatted_output with
    | none => none
    | some t =>
      match save_file_chunks (qid + 1) rest with
      | none => none
      | some cs =>
          some ((eq100 ++ "\n" ++ "Question #" ++ toString qid ++ " (ID" ++ p.1 ++ ")\n" ++
              eq100 ++ "\n" ++ (t ++ "\n\n\n")) :: cs)

/-- The full file content produced by `save_file`: the file is opened in mode
`"w"` (full overwrite), so the resulting content is exactly the concatenation
of the sequentially written chunks, independent of any previous content. -/
def save_file_content (sessions : Store) : Option String :=
  (save_file_chunks 0 sessions).map strConcat

/-- File content as literally described by the specification of Persistence
("exactly the concatenation ... of a delimited header ... followed by that
session's current formatted transcript"); stated only to be compared against
`save_file_content`. -/
def save_file_content_specC8 (sessions : Store) : String :=
  strConcat (sessions.enum.map (fun p =>
    eq100 ++ "\n" ++ "Question #" ++ toString p.1 ++ " (ID" ++ p.2.1 ++ ")\n" ++
      eq100 ++ "\n" ++ p.2.2.formatted_output.getD ""))

/-- `sub.isPre s` decides whether `sub` starts `s` (over char lists). -/
def listIsPre : List Char → List Char → Bool
  | [], _ => true
  | _ :: _, [] => false
  | a :: as, b :: bs => a == b && listIsPre as bs

/-- Occurrence of `sub` somewhere inside `s` (over char lists). -/
def listHasSub (sub : List Char) : List Char → Bool
  | [] => listIsPre sub []
  | c :: rest => listIsPre sub (c :: rest) || listHasSub sub rest

/-- Python's substring containment `sub in s`. -/
def strIn (sub s : String) : Bool := listHasSub sub.data s.data

/-- What `llm.generate` does during one interactive turn: either it is cut
short by a `KeyboardInterrupt` or it returns a reply text. -/
inductive GenOutcome where
  | interrupted
  | reply (text : String)
deriving DecidableEq

/-- Result of one pass through the `while True` body of `chat.py`:
the loop continues, the loop breaks (`EXIT`), or an uncaught exception
escapes.  Each carries the conversation state at that moment. -/
inductive StepResult where
  | continueLoop (user_messages bot_messages : List String)
  | exitLoop (user_messages bot_messages : List String)
  | crashed (user_messages bot_messages : List String)
deriving DecidableEq

/-- One iteration of the REPL loop of `chat.py` (lines 79-120).
`inp = none` models a `KeyboardInterrupt` inside `multiline_input` (caught by
the `except KeyboardInterrupt` handler before any state change); otherwise
`inp = some m` is the completed user input.  `gen` tells whether
`llm.generate` is interrupted (also caught, but only after
`user_messages.append`) or returns a reply.  A `ValueError` escaping
`build_conversation_prompt` is not caught by the handler, hence `crashed`. -/
def repl_turn (user_messages bot_messages : List String)
    (inp : Option String) (gen : GenOutcome) : StepResult :=
  match inp with
  | none => StepResult.continueLoop user_messages bot_messages
  | some user_message =>
    if strIn "CLEAR" user_message then StepResult.continueLoop [] []
    else if strIn "EXIT" user_message then StepResult.exitLoop user_messages bot_messages
    else
      match build_conversation_prompt (user_messages ++ [user_message]) bot_messages with
      | Except.error _ => StepResult.crashed (user_messages ++ [user_message]) bot_messages
      | Except.ok _ =>
        match gen with
        | GenOutcome.interrupted =>
            StepResult.continueLoop (user_messages ++ [user_message]) bot_messages
        | GenOutcome.reply t =>
            StepResult.continueLoop (user_messages ++ [user_message]) (bot_messages ++ [t])

/-! ### Helper lemmas -/

theorem joinSpace_cons (x : String) (xs : List String) (h : xs ≠ []) :
    joinSpace (x :: xs) = x ++ " " ++ joinSpace xs := by
  cases xs with
  | nil => exact absurd rfl h
  | cons y ys => rfl

theorem joinSpace_append_last (xs : List String) (y : String) (h : xs ≠ []) :
    joinSpace (xs ++ [y]) = joinSpace xs ++ " " ++ y := by
  induction xs with
  | nil => exact absurd rfl h
  | cons x xs ih =>
    cases xs with
    | nil => rfl
    | cons z zs =>
      rw [List.cons_append, joinSpace_cons x ((z :: zs) ++ [y]) (by simp),
        joinSpace_cons x (z :: zs) (by simp), ih (by simp)]
      simp [String.append_assoc]

theorem foldl_append_lists {α β : Type} (l : List α) (f : α → List β) (acc : List β) :
    l.foldl (fun a x => a ++ f x) acc = acc ++ (l.map f).flatten := by
  induction l generalizing acc with
  | nil => simp
  | cons x xs ih => simp [ih]

theorem strConcat_cons (s : String) (l : List String) :
    strConcat (s :: l) = s ++ strConcat l := rfl

theorem foldl_append_strings {α : Type} (l : List α) (g : α → String) (init : String) :
    l.foldl (fun a x => a ++ g x) init = init ++ strConcat (l.map g) := by
  induction l generalizing init with
  | nil => simp [strConcat]
  | cons x xs ih =>
    rw [List.foldl_cons, ih, List.map_cons, strConcat_cons, String.append_assoc]

theorem zip_eq_range_map (U B : List String) (h : B.length ≤ U.length) :
    U.zip B = (List.range B.length).map (fun i => (U.getD i "", B.getD i "")) := by
  induction B generalizing U with
  | nil => simp
  | cons b bs ih =>
    cases U with
    | nil => simp at h
    | cons u us =>
      simp only [List.length_cons] at h
      rw [List.length_cons, List.range_succ_eq_map, List.map_cons, List.map_map]
      rw [List.zip_cons_cons, ih us (by omega)]
      simp [Function.comp_def]

theorem getLast_eq_getD (l : List String) (w : l ≠ []) (n : Nat) (h : l.length = n + 1) :
    l.getLast w = l.getD n "" := by
  have hn : n < l.length := by omega
  rw [List.getD_eq_getElem l "" hn, List.getLast_eq_getElem]
  congr 1
  omega

theorem build_conversation_prompt_eq (U B : List String) (h : U.length = B.length + 1) :
    build_conversation_prompt U B = Except.ok (joinSpace
      (["<s>"] ++
        ((List.range B.length).map
          (fun i => ["[INST]", U.getD i "", "[/INST]", B.getD i "", "</s>"])).flatten ++
        ["[INST]", U.getD B.length "", "[/INST]"])) := by
  unfold build_conversation_prompt
  rw [dif_neg (by omega)]
  have h1 : (U.zip B).foldl
      (fun acc p => acc ++ ["[INST]", p.1, "[/INST]", p.2, "</s>"]) ([] : List String) =
      ((List.range B.length).map
        (fun i => ["[INST]", U.getD i "", "[/INST]", B.getD i "", "</s>"])).flatten := by
    rw [foldl_append_lists, List.nil_append, zip_eq_range_map U B (by omega), List.map_map]
    simp [Function.comp_def]
  rw [h1, getLast_eq_getD U _ B.length h]

theorem build_conversation_prompt_single (x : String) :
    build_conversation_prompt [x] [] = Except.ok ("<s> [INST] " ++ x ++ " [/INST]") := by
  have h := build_conversation_prompt_eq [x] [] (by simp)
  simp only [List.length_nil, List.range_zero, List.map_nil, List.flatten_nil,
    List.append_nil, List.getD_cons_zero] at h
  rw [h]
  have hj : joinSpace (["<s>"] ++ ["[INST]", x, "[/INST]"]) =
      "<s> [INST] " ++ x ++ " [/INST]" := by
    show ("<s>" ++ " ") ++ (("[INST]" ++ " ") ++ ((x ++ " ") ++ "[/INST]")) = _
    apply String.ext
    simp [String.data_append, List.append_assoc]
  rw [← hj]

theorem render_formatted_output_eq (q : String) (l : List String)
    (fin : Option (List String)) :
    render_formatted_output q l fin =
      q ++ "\n\n\n" ++
        strConcat (l.enum.map (fun p =>
          dash45 ++ "[ANSWER " ++ toString p.1 ++ "]" ++ dash45 ++ "\n" ++ p.2 ++ "\n\n\n")) ++
        strConcat ((fin.getD []).map (fun a =>
          dash43 ++ "[FINAL ANSWER]" ++ dash43 ++ "\n" ++ a ++ "\n\n\n")) := by
  cases fin with
  | none =>
    simp only [render_formatted_output, Option.getD_none, List.map_nil]
    rw [foldl_append_strings]
    show _ = _ ++ strConcat []
    rw [show strConcat [] = "" from rfl, String.append_empty]
  | some fs =>
    simp only [render_formatted_output, Option.getD_some]
    rw [foldl_append_strings, foldl_append_strings]
    have hm : fs.enum.map (fun p : Nat × String =>
        dash43 ++ "[FINAL ANSWER]" ++ dash43 ++ "\n" ++ p.2 ++ "\n\n\n") =
        fs.map (fun a => dash43 ++ "[FINAL ANSWER]" ++ dash43 ++ "\n" ++ a ++ "\n\n\n") := by
      rw [show (fun p : Nat × String =>
          dash43 ++ "[FINAL ANSWER]" ++ dash43 ++ "\n" ++ p.2 ++ "\n\n\n") =
          (fun a => dash43 ++ "[FINAL ANSWER]" ++ dash43 ++ "\n" ++ a ++ "\n\n\n") ∘ Prod.snd
          from rfl]
      rw [← List.map_map, List.enum_map_snd]
    rw [hm]

/-! ### Claims -/

/-- C1: for every pair of string lists `(U, B)` with `len(U) == len(B) + 1`,
`build_conversation_prompt` returns the string obtained by joining with single
spaces the token `"<s>"`, then for each index `i < len(B)` the tokens
`"[INST]"`, `U[i]`, `"[/INST]"`, `B[i]`, `"</s>"`, then `"[INST]"`, the final
user message `U[len(B)]`, and `"[/INST]"`; in particular the output starts
with `"<s>"`, ends with the final user message followed by `" [/INST]"`, and
for `U = ["Hi"]`, `B = []` the result is exactly `"<s> [INST] Hi [/INST]"`. -/
theorem c1_build_conversation_prompt (U B : List String) (h : U.length = B.length + 1) :
    build_conversation_prompt U B = Except.ok (joinSpace
      (["<s>"] ++
        ((List.range B.length).map
          (fun i => ["[INST]", U.getD i "", "[/INST]", B.getD i "", "</s>"])).flatten ++
        ["[INST]", U.getD B.length "", "[/INST]"]))
    ∧ (∃ rest, build_conversation_prompt U B = Except.ok ("<s>" ++ rest))
    ∧ (∃ pre, build_conversation_prompt U B =
        Except.ok (pre ++ (U.getD B.length "" ++ " [/INST]")))
    ∧ build_conversation_prompt ["Hi"] [] = Except.ok "<s> [INST] Hi [/INST]" := by
  refine ⟨build_conversation_prompt_eq U B h, ?_, ?_, ?_⟩
  · rw [build_conversation_prompt_eq U B h]
    have hne : ((List.range B.length).map
        (fun i => ["[INST]", U.getD i "", "[/INST]", B.getD i "", "</s>"])).flatten ++
        ["[INST]", U.getD B.length "", "[/INST]"] ≠ [] := by simp
    rw [show (["<s>"] ++
        ((List.range B.length).map
          (fun i => ["[INST]", U.getD i "", "[/INST]", B.getD i "", "</s>"])).flatten ++
        ["[INST]", U.getD B.length "", "[/INST]"]) = "<s>" ::
        (((List.range B.length).map
          (fun i => ["[INST]", U.getD i "", "[/INST]", B.getD i "", "</s>"])).flatten ++
        ["[INST]", U.getD B.length "", "[/INST]"]) from by simp,
      joinSpace_cons _ _ hne]
    exact ⟨" " ++ joinSpace _, by rw [String.append_assoc]⟩
  · rw [build_conversation_prompt_eq U B h]
    have hsplit : (["<s>"] ++
        ((List.range B.length).map
          (fun i => ["[INST]", U.getD i "", "[/INST]", B.getD i "", "</s>"])).flatten ++
        ["[INST]", U.getD B.length "", "[/INST]"]) =
        ((["<s>"] ++
          ((List.range B.length).map
            (fun i => ["[INST]", U.getD i "", "[/INST]", B.getD i "", "</s>"])).flatten ++
          ["[INST]"]) ++ [U.getD B.length ""]) ++ ["[/INST]"] := by simp
    rw [hsplit, joinSpace_append_last _ _ (by simp), joinSpace_append_last _ _ (by simp)]
    refine ⟨joinSpace (["<s>"] ++
        ((List.range B.length).map
          (fun i => ["[INST]", U.getD i "", "[/INST]", B.getD i "", "</s>"])).flatten ++
        ["[INST]"]) ++ " ", ?_⟩
    apply congrArg Except.ok
    apply String.ext
    simp [String.data_append, List.append_assoc]
  · rfl

theorem c1_build_conversation_prompt_witness :
    (["Hi"] : List String).length = ([] : List String).length + 1 ∧
      build_conversation_prompt ["Hi"] [] = Except.ok "<s> [INST] Hi [/INST]" :=
  ⟨by decide, (c1_build_conversation_prompt ["Hi"] [] (by decide)).2.2.2⟩

/-- C2: for every pair of string lists `(U, B)` with `len(U) ≠ len(B) + 1`,
`build_conversation_prompt` raises the `ValueError` (modelled as
`Except.error` with the source's message) and produces no output string; in
particular `U = ["Hi"]`, `B = ["Hello"]` raises the turn-count error. -/
theorem c2_build_conversation_prompt_error (U B : List String)
    (h : U.length ≠ B.length + 1) :
    build_conversation_prompt U B =
        Except.error "User messages and bot messages must be of equal length" ∧
      build_conversation_prompt ["Hi"] ["Hello"] =
        Except.error "User messages and bot messages must be of equal length" := by
  constructor
  · unfold build_conversation_prompt
    rw [dif_pos h]
  · rfl

theorem c2_build_conversation_prompt_error_witness :
    (["Hi"] : List String).length ≠ (["Hello"] : List String).length + 1 ∧
      build_conversation_prompt ["Hi"] ["Hello"] =
        Except.error "User messages and bot messages must be of equal length" :=
  ⟨by decide, (c2_build_conversation_prompt_error ["Hi"] ["Hello"] (by decide)).1⟩

/-- C3 counterexample: on a store holding one session with question text
`"Q\n"` and single answer candidate `"A"`, `format_session_outputs` does not
produce the transcript literally described by the claim (question text
followed by two newlines, each candidate followed by two trailing newlines):
the code emits three newline characters in both places. -/
theorem c3_format_session_outputs_counterexample :
    (format_session_outputs
        [("0", ⟨⟨"q", none⟩, "Q\n", some ["A"], none, none⟩)]).1 ≠
      [("0", ⟨⟨"q", none⟩, "Q\n", some ["A"], none,
        some (render_formatted_output_specC3 "Q\n" ["A"] none)⟩)] := by
  decide

/-- C3 (amended): for every store whose sessions all carry an answer list,
`format_session_outputs` sets each session's transcript to exactly the
formatted question text followed by three newline characters, then for each
answer candidate in order a delimiter line of 45 dashes, `"[ANSWER {i}]"` and
45 dashes, a newline, the candidate text and three newline characters, then —
only when final-answer candidates exist — the same pattern per final-answer
candidate with 43-dash delimiters labelled `"[FINAL ANSWER]"`. -/
theorem c3_format_session_outputs_amended (store : Store)
    (h : ∀ p ∈ store, p.2.answers ≠ none) :
    format_session_outputs store =
      (store.map (fun p => (p.1, { p.2 with formatted_output := some (p.2.question_formatted ++ "\n\n\n" ++ strConcat ((p.2.answers.getD []).enum.map (fun a => dash45 ++ "[ANSWER " ++ toString a.1 ++ "]" ++ dash45 ++ "\n" ++ a.2 ++ "\n\n\n")) ++ strConcat ((p.2.final_answers.getD []).map (fun a => dash43 ++ "[FINAL ANSWER]" ++ dash43 ++ "\n" ++ a ++ "\n\n\n"))) })),
       true) := by
  induction store with
  | nil => rfl
  | cons p rest ih =>
    obtain ⟨id, s⟩ := p
    cases ha : s.answers with
    | none => exact absurd ha (h (id, s) (List.mem_cons_self _ _))
    | some l =>
      have hrest := ih (fun q hq => h q (List.mem_cons_of_mem _ hq))
      simp only [format_session_outputs, ha, hrest, List.map_cons]
      rw [render_formatted_output_eq]
      simp [ha]

theorem c3_format_session_outputs_amended_witness :
    ((∀ p ∈ ([("0", ⟨⟨"q", none⟩, "Q\n", some ["A"], none, none⟩)] : Store),
        p.2.answers ≠ none) ∧
      (format_session_outputs
        [("0", ⟨⟨"q", none⟩, "Q\n", some ["A"], none, none⟩)]).2 = true) :=
  ⟨by decide,
    by rw [c3_format_session_outputs_amended
      [("0", ⟨⟨"q", none⟩, "Q\n", some ["A"], none, none⟩)] (by decide)]⟩

/-- C4: `format_session_outputs` is idempotent — applying it twice in a row
to any session store leaves every session's formatted transcript (and the
whole store) byte-identical to the result of applying it once. -/
theorem c4_format_session_outputs_idempotent (store : Store) :
    (format_session_outputs (format_session_outputs store).1).1 =
      (format_session_outputs store).1 := by
  induction store with
  | nil => rfl
  | cons p rest ih =>
    obtain ⟨id, s⟩ := p
    cases ha : s.answers with
    | none => simp [format_session_outputs, ha]
    | some l => simp [format_session_outputs, ha, ih]

/-- C5: a session with exactly `k` answer candidates and no final-answer
candidates is rendered as its question text followed by exactly the `k`
answer blocks whose labels are `0 .. k-1` in that order — the block list has
length `k`, its labels are exactly `List.range k`, and no `"[FINAL ANSWER]"`
block occurs (the final-answer part of the transcript is empty). -/
theorem c5_answer_blocks (q : String) (l : List String) (k : Nat)
    (hk : l.length = k) :
    render_formatted_output q l none =
        q ++ "\n\n\n" ++
          strConcat (((List.range k).zip l).map (fun p =>
            dash45 ++ "[ANSWER " ++ toString p.1 ++ "]" ++ dash45 ++ "\n" ++ p.2 ++ "\n\n\n"))
      ∧ ((List.range k).zip l).map Prod.fst = List.range k
      ∧ (((List.range k).zip l).map (fun p =>
          dash45 ++ "[ANSWER " ++ toString p.1 ++ "]" ++ dash45 ++ "\n" ++ p.2 ++ "\n\n\n")).length
          = k := by
  subst hk
  refine ⟨?_, ?_, by simp⟩
  · rw [render_formatted_output_eq, List.enum_eq_zip_range]
    simp only [Option.getD_none, List.map_nil]
    rw [show strConcat [] = "" from rfl, String.append_empty]
  · rw [List.map_fst_zip]
    simp

theorem c5_answer_blocks_witness :
    (["a", "b"] : List String).length = 2 ∧
      render_formatted_output "Q" ["a", "b"] none =
        "Q" ++ "\n\n\n" ++
          strConcat (((List.range 2).zip ["a", "b"]).map (fun p =>
            dash45 ++ "[ANSWER " ++ toString p.1 ++ "]" ++ dash45 ++ "\n" ++ p.2 ++ "\n\n\n")) :=
  ⟨by decide, (c5_answer_blocks "Q" ["a", "b"] 2 (by decide)).1⟩

theorem build_final_prompts_eq (store : Store)
    (h : ∀ p ∈ store, p.2.formatted_output ≠ none) :
    build_final_prompts store = some (store.map (fun p =>
      build_conversation_prompt
        [p.2.formatted_output.getD "" ++ "\n" ++ tilde10 ++
          "\n\nPlease provide the CORRECT final answer based on the question and the independent answers above. Explain why please!\n"]
        [])) := by
  induction store with
  | nil => rfl
  | cons p rest ih =>
    cases hf : p.2.formatted_output with
    | none => exact absurd hf (h p (List.mem_cons_self _ _))
    | some t =>
      simp only [build_final_prompts, hf,
        ih (fun q hq => h q (List.mem_cons_of_mem _ hq)), List.map_cons,
        Option.getD_some]

/-- C6: round 1 submits, per session in store order, the single-turn prompt
the Prompt Builder makes from the formatted question with an empty bot-turn
list, with sampling configuration `n = 7`, `best_of = 10`, `max_tokens =
1024` (the defaults the batch driver passes); round 2 submits, per session,
the prompt whose single user turn is the round-1 formatted transcript, a
newline, the ten-tilde separator line, two newlines and the fixed
final-answer instruction, with the default configuration `n = 1`,
`best_of = 3`, `max_tokens = 1024`. -/
theorem c6_batch_requests (store : Store) :
    answer_batch_questions_request store 7 10 =
        (store.map (fun p =>
          Except.ok ("<s> [INST] " ++ p.2.question_formatted ++ " [/INST]")),
         { n := 7, best_of := 10, max_tokens := 1024 })
      ∧ ((∀ p ∈ store, p.2.formatted_output ≠ none) →
          answer_batch_questions_final_request store 1 3 =
          some (store.map (fun p =>
            Except.ok ("<s> [INST] " ++
              (p.2.formatted_output.getD "" ++ "\n" ++ tilde10 ++ "\n\n" ++
                "Please provide the CORRECT final answer based on the question and the independent answers above. Explain why please!\n") ++
              " [/INST]")),
           { n := 1, best_of := 3, max_tokens := 1024 })) := by
  constructor
  · simp only [answer_batch_questions_request, Prod.mk.injEq]
    refine ⟨?_, trivial⟩
    rw [show (fun p : String × Session =>
        build_conversation_prompt [p.2.question_formatted] []) =
        (fun p : String × Session =>
          Except.ok ("<s> [INST] " ++ p.2.question_formatted ++ " [/INST]")) from
      funext (fun p => build_conversation_prompt_single _)]
  · intro h
    have hfun : ∀ p : String × Session,
        build_conversation_prompt
          [p.2.formatted_output.getD "" ++ "\n" ++ tilde10 ++
            "\n\nPlease provide the CORRECT final answer based on the question and the independent answers above. Explain why please!\n"]
          [] =
        Except.ok ("<s> [INST] " ++
          (p.2.formatted_output.getD "" ++ "\n" ++ tilde10 ++ "\n\n" ++
            "Please provide the CORRECT final answer based on the question and the independent answers above. Explain why please!\n") ++
          " [/INST]") := by
      intro p
      rw [build_conversation_prompt_single]
      apply congrArg Except.ok
      apply String.ext
      simp [String.data_append, List.append_assoc]
    simp only [answer_batch_questions_final_request, build_final_prompts_eq store h,
      Option.map_some', hfun]

theorem c6_batch_requests_witness :
    (∀ p ∈ ([("0", ⟨⟨"q", none⟩, "Q", some ["A"], none, some "T"⟩)] : Store),
        p.2.formatted_output ≠ none) ∧
      (answer_batch_questions_request
          [("0", ⟨⟨"q", none⟩, "Q", some ["A"], none, some "T"⟩)] 7 10).2 =
        { n := 7, best_of := 10, max_tokens := 1024 } ∧
      (answer_batch_questions_final_request
          [("0", ⟨⟨"q", none⟩, "Q", some ["A"], none, some "T"⟩)] 1 3).isSome = true :=
  ⟨by decide,
    by rw [(c6_batch_requests
        [("0", ⟨⟨"q", none⟩, "Q", some ["A"], none, some "T"⟩)]).1],
    by rw [(c6_batch_requests
        [("0", ⟨⟨"q", none⟩, "Q", some ["A"], none, some "T"⟩)]).2 (by decide)]
       rfl⟩

set_option maxRecDepth 10000 in
/-- C7: `generate_sessions` builds each session's formatted question text as
the `"QUESTION:"` line, then one `"OPTION N:"` line per option with `N` the
zero-based index in input order (zero lines without options), then the fixed
instructional suffix; in particular the example question `"2+2?"` with
options `["3", "4"]` yields exactly the `QUESTION: 2+2?`, `OPTION 0: 3`,
`OPTION 1: 4` lines followed by the suffix. -/
theorem c7_generate_sessions :
    (∀ question : RawQuestion, question_formatted_of question =
        "QUESTION: " ++ question.question_text ++ "\n" ++
          strConcat ((question.options.getD []).enum.map (fun p =>
            "OPTION " ++ toString p.1 ++ ": " ++ p.2 ++ "\n")) ++
          "\n\n Please provide the answer and explain your reasoning! If there are options to choose from, do not provide an answer different from the options.\n")
      ∧ (∀ raw_questions : List (String × RawQuestion),
          generate_sessions raw_questions = raw_questions.map (fun p =>
            (p.1, ⟨p.2, question_formatted_of p.2, none, none, none⟩)))
      ∧ question_formatted_of ⟨"2+2?", some ["3", "4"]⟩ =
          "QUESTION: 2+2?\nOPTION 0: 3\nOPTION 1: 4\n\n\n Please provide the answer and explain your reasoning! If there are options to choose from, do not provide an answer different from the options.\n" := by
  refine ⟨?_, fun raw_questions => rfl, by decide⟩
  intro question
  cases ho : question.options with
  | none =>
    simp only [question_formatted_of, ho, Option.getD_none, List.enum_nil,
      List.map_nil]
    rw [show strConcat [] = "" from rfl, String.append_empty]
    apply String.ext
    simp [String.data_append, List.append_assoc]
  | some opts =>
    simp only [question_formatted_of, ho, Option.getD_some]
    rw [foldl_append_strings]
    apply String.ext
    simp [String.data_append, List.append_assoc]

set_option maxRecDepth 10000 in
/-- C8 counterexample: on a one-session store with transcript `"T\n"`, the
file written by `save_file` is not the bare concatenation of the delimited
header and the transcript that the claim describes: the code writes three
further newline characters after the transcript. -/
theorem c8_save_file_counterexample :
    save_file_content [("a", ⟨⟨"q", none⟩, "Q\n", some ["A"], none, some "T\n"⟩)] ≠
      some (save_file_content_specC8
        [("a", ⟨⟨"q", none⟩, "Q\n", some ["A"], none, some "T\n"⟩)]) := by
  decide

theorem save_file_chunks_eq (store : Store) (n : Nat)
    (h : ∀ p ∈ store, p.2.formatted_output ≠ none) :
    save_file_chunks n store = some ((store.enumFrom n).map (fun p =>
      eq100 ++ "\n" ++ "Question #" ++ toString p.1 ++ " (ID" ++ p.2.1 ++ ")\n" ++
        eq100 ++ "\n" ++ (p.2.2.formatted_output.getD "" ++ "\n\n\n"))) := by
  induction store generalizing n with
  | nil => rfl
  | cons p rest ih =>
    cases hf : p.2.formatted_output with
    | none => exact absurd hf (h p (List.mem_cons_self _ _))
    | some t =>
      simp only [save_file_chunks, hf,
        ih (n + 1) (fun q hq => h q (List.mem_cons_of_mem _ hq)),
        List.enumFrom_cons, List.map_cons, Option.getD_some]

/-- C8 (amended): for every store whose sessions all carry a formatted
transcript, `save_file` fully overwrites the target file with exactly the
concatenation, over the sessions in store iteration order, of the delimited
header `"Question #{ordinal} (ID{question_id})"` (ordinal from 0), the
session's current transcript, and three trailing newline characters — so a
store of 2 sessions yields exactly 2 numbered headers in iteration order. -/
theorem c8_save_file_amended (store : Store)
    (h : ∀ p ∈ store, p.2.formatted_output ≠ none) :
    save_file_content store = some (strConcat (store.enum.map (fun p =>
      eq100 ++ "\n" ++ "Question #" ++ toString p.1 ++ " (ID" ++ p.2.1 ++ ")\n" ++
        eq100 ++ "\n" ++ p.2.2.formatted_output.getD "" ++ "\n\n\n"))) := by
  unfold save_file_content
  rw [save_file_chunks_eq store 0 h]
  simp only [Option.map_some']
  apply congrArg some
  apply congrArg strConcat
  rw [show store.enum = store.enumFrom 0 from rfl]
  exact congrArg (fun fn => List.map fn (store.enumFrom 0))
    (funext (fun p => by
      apply String.ext
      simp [String.data_append, List.append_assoc]))

theorem c8_save_file_amended_witness :
    (∀ p ∈ ([("a", ⟨⟨"qa", none⟩, "QA\n", some ["A"], none, some "TA\n"⟩),
        ("b", ⟨⟨"qb", none⟩, "QB\n", some ["B"], none, some "TB\n"⟩)] : Store),
        p.2.formatted_output ≠ none) ∧
      (save_file_content
        [("a", ⟨⟨"qa", none⟩, "QA\n", some ["A"], none, some "TA\n"⟩),
         ("b", ⟨⟨"qb", none⟩, "QB\n", some ["B"], none, some "TB\n"⟩)]).isSome = true :=
  ⟨by decide,
    by rw [c8_save_file_amended
      [("a", ⟨⟨"qa", none⟩, "QA\n", some ["A"], none, some "TA\n"⟩),
       ("b", ⟨⟨"qb", none⟩, "QB\n", some ["B"], none, some "TB\n"⟩)] (by decide)]
       rfl⟩

/-- C9 counterexample: starting a turn from the seeded one-user/one-bot
conversation state, a `KeyboardInterrupt` during generation (after the user
message `"Hi"` has been read and appended) is caught and the loop continues,
but the conversation state is not equal to its value at the start of the
turn: the user-message list has grown by the submitted message. -/
theorem c9_repl_interrupt_counterexample :
    repl_turn ["u0"] ["b0"] (some "Hi") GenOutcome.interrupted ≠
      StepResult.continueLoop ["u0"] ["b0"] := by
  decide

/-- C9 (amended): an input-phase interruption is caught and the loop
continues with the conversation state intact; a generation-phase interruption
(in a turn whose input is not a control token, from a state with equally many
user and bot turns) is caught and the loop also continues, but with the just
appended user message retained, so the state is the turn-start state with one
extra user turn — and the next ordinary turn then crashes on the prompt
builder's turn-count validation error instead of working. -/
theorem c9_repl_interrupt_amended (U B : List String) (m m2 : String)
    (gen : GenOutcome)
    (h1 : strIn "CLEAR" m = false) (h2 : strIn "EXIT" m = false)
    (h3 : strIn "CLEAR" m2 = false) (h4 : strIn "EXIT" m2 = false)
    (h5 : U.length = B.length) :
    repl_turn U B none gen = StepResult.continueLoop U B
      ∧ repl_turn U B (some m) GenOutcome.interrupted =
          StepResult.continueLoop (U ++ [m]) B
      ∧ repl_turn (U ++ [m]) B (some m2) gen =
          StepResult.crashed (U ++ [m] ++ [m2]) B := by
  refine ⟨rfl, ?_, ?_⟩
  · simp only [repl_turn, h1, h2, Bool.false_eq_true, if_false]
    obtain ⟨s, hs⟩ : ∃ s, build_conversation_prompt (U ++ [m]) B = Except.ok s := by
      unfold build_conversation_prompt
      rw [dif_neg (by simp [h5])]
      exact ⟨_, rfl⟩
    rw [hs]
  · simp only [repl_turn, h3, h4, Bool.false_eq_true, if_false]
    have herr : build_conversation_prompt (U ++ [m] ++ [m2]) B =
        Except.error "User messages and bot messages must be of equal length" := by
      unfold build_conversation_prompt
      rw [dif_pos (by simp [h5])]
    rw [herr]

theorem c9_repl_interrupt_amended_witness :
    strIn "CLEAR" "Hi" = false ∧ strIn "EXIT" "Hi" = false ∧
      strIn "CLEAR" "Bye" = false ∧ strIn "EXIT" "Bye" = false ∧
      (["u0"] : List String).length = (["b0"] : List String).length ∧
      (repl_turn ["u0"] ["b0"] none (GenOutcome.reply "ok") =
          StepResult.continueLoop ["u0"] ["b0"]
        ∧ repl_turn ["u0"] ["b0"] (some "Hi") GenOutcome.interrupted =
            StepResult.continueLoop (["u0"] ++ ["Hi"]) ["b0"]
        ∧ repl_turn (["u0"] ++ ["Hi"]) ["b0"] (some "Bye") (GenOutcome.reply "ok") =
            StepResult.crashed (["u0"] ++ ["Hi"] ++ ["Bye"]) ["b0"]) :=
  ⟨by decide, by decide, by decide, by decide, by decide,
    c9_repl_interrupt_amended ["u0"] ["b0"] "Hi" "Bye" (GenOutcome.reply "ok")
      (by decide) (by decide) (by decide) (by decide) (by decide)⟩

/-- C10: `format_session_outputs` requires every session to already carry an
`answers` entry — if the session at position `i` of the store has none, the
call fails with the missing-key lookup error (flag `false`) and that session
is left untouched: no `formatted_output` is written for it, and in particular
a question-only transcript is never rendered. -/
theorem c10_format_requires_answers (store : Store) (i : Nat)
    (p : String × Session) (hp : store[i]? = some p) (ha : p.2.answers = none) :
    (format_session_outputs store).2 = false ∧
      (format_session_outputs store).1[i]? = some p := by
  induction store generalizing i with
  | nil => simp at hp
  | cons q rest ih =>
    obtain ⟨id, s⟩ := q
    cases i with
    | zero =>
      rw [List.getElem?_cons_zero] at hp
      obtain rfl : (id, s) = p := Option.some.inj hp
      have hs : s.answers = none := ha
      simp [format_session_outputs, hs]
    | succ j =>
      rw [List.getElem?_cons_succ] at hp
      cases hs : s.answers with
      | none =>
        refine ⟨by simp [format_session_outputs, hs], ?_⟩
        simp [format_session_outputs, hs, hp]
      | some l =>
        have hres := ih j hp
        refine ⟨?_, ?_⟩
        · simp [format_session_outputs, hs, hres.1]
        · simp [format_session_outputs, hs, hres.2]

theorem c10_format_requires_answers_witness :
    (([("0", ⟨⟨"q", none⟩, "Q", none, none, none⟩)] : Store)[0]? =
        some ("0", ⟨⟨"q", none⟩, "Q", none, none, none⟩)) ∧
      ((("0", ⟨⟨"q", none⟩, "Q", none, none, none⟩) : String × Session).2.answers =
        none) ∧
      ((format_session_outputs [("0", ⟨⟨"q", none⟩, "Q", none, none, none⟩)]).2 = false ∧
        (format_session_outputs [("0", ⟨⟨"q", none⟩, "Q", none, none, none⟩)]).1[0]? =
          some ("0", ⟨⟨"q", none⟩, "Q", none, none, none⟩)) :=
  ⟨by decide, by decide,
    c10_format_requires_answers [("0", ⟨⟨"q", none⟩, "Q", none, none, none⟩)] 0
      ("0", ⟨⟨"q", none⟩, "Q", none, none, none⟩) (by decide) (by decide)⟩
